import Mathlib

/-!
Verification of the FlowCheck client core against its design document.

The development shallowly embeds the two components the design singles out:

* the Progress Tracker of `ProcessingPage` — the seven-stage sequence, the
  poll handler `pollProgress` that recomputes every stage's status from the
  polled `current_step`, the completion branch that clears the interval and
  fetches the final result, and the effect cleanup that flips `isMounted`
  and clears the interval.  The asynchronous behaviour is embedded as a
  small-step event semantics: the host runtime is single threaded, so each
  synchronous segment of the handler (up to an `await`) is one atomic event.

* the Result Projector of `ResultsPage` — the destructuring with defaults,
  `getDtiRisk`, `getLoanVerdict`, the `last6` monthly-series slice, the
  spending-category expansion and the net-cash-flow caption.  JavaScript
  numbers are embedded as rationals, `Object.entries` of a record as an
  association list in insertion order, possibly-missing fields as `Option`,
  and a thrown `TypeError` as `Except.error`.
-/

namespace FlowCheck

/-- Stage status of a `ProcessingStep` ('pending' | 'processing' | 'completed'). -/
inductive StepStatus where
  | pending
  | processing
  | completed
deriving DecidableEq

/-- The `ProcessingStep` interface of `ProcessingPage`. -/
structure ProcessingStep where
  title : String
  description : String
  status : StepStatus
deriving DecidableEq

/-- The fixed `steps` array of `ProcessingPage` (seven stages, all pending). -/
def steps : List ProcessingStep :=
  [ { title := "Understanding Format",
      description := "Inferring layout structure (tabular vs freeform)",
      status := .pending },
    { title := "Transaction Extraction",
      description := "Pulling financial activity with LlamaParse",
      status := .pending },
    { title := "Currency Mapping",
      description := "Recognizing symbols, formats, and normalization",
      status := .pending },
    { title := "Data Integrity Checks",
      description := "Identifying gaps, misalignments, and duplications",
      status := .pending },
    { title := "Financial Analysis",
      description := "Detecting trends, volatility, and balance health",
      status := .pending },
    { title := "Insight Generation",
      description := "Mapping findings to risk and reliability metrics",
      status := .pending },
    { title := "Report Ready",
      description := "Summary generated — ready for review",
      status := .pending } ]

/-- The status ternary of `pollProgress`: `idx < step ? 'completed'
    : idx === step ? 'processing' : 'pending'`. -/
def stepStatusOf (idx step : Nat) : StepStatus :=
  if idx < step then .completed
  else if idx = step then .processing
  else .pending

/-- The `setProcessedSteps(prev => prev.map((stepObj, idx) => ...))` updater of
    `pollProgress`: every stage keeps its fields except that its status is
    recomputed from `(idx, step)`. -/
def recomputeSteps (prev : List ProcessingStep) (step : Nat) : List ProcessingStep :=
  prev.mapIdx fun idx stepObj => { stepObj with status := stepStatusOf idx step }

theorem length_recomputeSteps (prev : List ProcessingStep) (step : Nat) :
    (recomputeSteps prev step).length = prev.length := by
  simp [recomputeSteps]

theorem recomputeSteps_statuses (prev : List ProcessingStep) (step : Nat) :
    (recomputeSteps prev step).map ProcessingStep.status
      = (List.range prev.length).map fun idx => stepStatusOf idx step := by
  apply List.ext_get
  · simp [recomputeSteps]
  · intro i h1 h2
    simp [recomputeSteps, List.getElem_map, List.getElem_range, List.get_mapIdx]

/-! ## Event semantics of the polling effect

The `useEffect` of `ProcessingPage` closes over `isMounted` and the interval
handle.  The runtime is single threaded, so each synchronous segment of an
asynchronous callback runs atomically; the segments that touch state are:

* a `/progress` response being processed by `pollProgress` (the segment from
  the `if (!isMounted) return` guard through `setCurrentStep`,
  `setProcessedSteps` and, when `step >= processedSteps.length`,
  `clearInterval` plus issuing the `/results` fetch);
* a `/results` response being processed (the guard and `setFinalResult`);
* the effect cleanup (teardown: `isMounted = false; clearInterval`).

`resultFetches` counts how many times the `/results` fetch was issued and
`navigations` how many times a callback invoked `navigate` (the `navigate`
call in `pollProgress` is commented out in the source, so no event
increments it).  The payload type of the final result is an arbitrary `R`. -/

/-- Mutable state owned by the `ProcessingPage` effect. -/
structure TrackerState (R : Type) where
  isMounted : Bool
  intervalActive : Bool
  currentStep : Nat
  processedSteps : List ProcessingStep
  finalResult : Option R
  resultFetches : Nat
  navigations : Nat

/-- An atomic occurrence the scheduler can dispatch to the effect's callbacks. -/
inductive TrackerEvent (R : Type) where
  | progressResponse (step : Nat)
  | resultsResponse (r : R)
  | teardown

/-- Processing one `/progress` response inside `pollProgress`: the `isMounted`
    guard, then `setCurrentStep`, the total recomputation of the stage
    sequence, and the completion branch (`clearInterval` and issuing one
    `/results` fetch) when `step >= processedSteps.length`. -/
def handleProgress {R : Type} (s : TrackerState R) (step : Nat) : TrackerState R :=
  if s.isMounted then
    let s1 := { s with currentStep := step,
                       processedSteps := recomputeSteps s.processedSteps step }
    if s.processedSteps.length ≤ step then
      { s1 with intervalActive := false, resultFetches := s1.resultFetches + 1 }
    else s1
  else s

/-- Processing one `/results` response: the `isMounted` guard, then
    `setFinalResult` (the `navigate` on this path is commented out). -/
def handleResults {R : Type} (s : TrackerState R) (r : R) : TrackerState R :=
  if s.isMounted then { s with finalResult := some r } else s

/-- The effect cleanup: `isMounted = false; clearInterval(pollInterval)`. -/
def teardown {R : Type} (s : TrackerState R) : TrackerState R :=
  { s with isMounted := false, intervalActive := false }

/-- Dispatch one event. -/
def processEvent {R : Type} (s : TrackerState R) : TrackerEvent R → TrackerState R
  | .progressResponse step => handleProgress s step
  | .resultsResponse r => handleResults s r
  | .teardown => teardown s

/-- Run the effect over a whole sequence of dispatched events. -/
def run {R : Type} (s : TrackerState R) (evs : List (TrackerEvent R)) : TrackerState R :=
  evs.foldl processEvent s

/-- The state right after the effect sets up polling. -/
def initialTrackerState (R : Type) : TrackerState R :=
  { isMounted := true, intervalActive := true, currentStep := 0,
    processedSteps := steps, finalResult := none,
    resultFetches := 0, navigations := 0 }

theorem processEvent_of_torn_down {R : Type} (s : TrackerState R)
    (hm : s.isMounted = false) (hi : s.intervalActive = false)
    (e : TrackerEvent R) : processEvent s e = s := by
  cases e with
  | progressResponse step => simp [processEvent, handleProgress, hm]
  | resultsResponse r => simp [processEvent, handleResults, hm]
  | teardown =>
      cases s
      simp_all [processEvent, teardown]

theorem run_of_torn_down {R : Type} (s : TrackerState R)
    (hm : s.isMounted = false) (hi : s.intervalActive = false)
    (evs : List (TrackerEvent R)) : run s evs = s := by
  induction evs with
  | nil => rfl
  | cons e evs ih =>
      show run (processEvent s e) evs = s
      rw [processEvent_of_torn_down s hm hi e, ih]

/-! ## Result Projector (`ResultsPage`)

JavaScript numbers are embedded as `ℚ`; `x.toFixed(1)` (and the `parseFloat`
of its result) as rounding to one decimal, `Math.round` as `round : ℚ → ℤ`
(both round halves up, as JavaScript does); `Object.entries` of a record as
an association list in insertion order; a possibly-missing field as an
`Option` whose `undefined` destructuring default is `Option.getD`. -/

/-- One value of the `monthly_flows` record of `analysis_summary`. -/
structure MonthlyFlow where
  deposits : ℚ
  withdrawals : ℚ
  end_balance : ℚ
  debt_to_income : ℚ
deriving DecidableEq

/-- One entry of `data_issues`; the `transaction` payload is opaque to the
    projector (only `JSON.stringify`-ed for display), kept as a string. -/
structure DataIssue where
  reason : String
  transaction : String
deriving DecidableEq

/-- The `analysis_summary` sub-object, every field possibly missing. -/
structure AnalysisSummary where
  total_deposits : Option ℚ
  total_withdrawals : Option ℚ
  net_cash_flow : Option ℚ
  debt_to_income : Option ℚ
  monthly_flows : Option (List (String × MonthlyFlow))
deriving DecidableEq

/-- The fields of the `GeminiResult` payload that the projector reads, every
    one possibly missing (a partially-populated payload). -/
structure GeminiResult where
  session_id : Option String
  loan_score : Option ℚ
  loan_amount_requested : Option ℚ
  analysis_summary : Option AnalysisSummary
  spending_by_category : Option (List (String × ℚ))
  data_issues : Option (List DataIssue)
deriving DecidableEq

/-- Rounding to one decimal: the numeric value of `x.toFixed(1)`. -/
def toFixed1 (q : ℚ) : ℚ := (round (q * 10) : ℚ) / 10

/-- The displayed DTI percentage: `(debt_to_income * 100).toFixed(1)`. -/
def dtiRatio (debt_to_income : ℚ) : ℚ := toFixed1 (debt_to_income * 100)

/-- The `getDtiRisk` bucketing of `ResultsPage` (label component). -/
def getDtiRisk (ratio : ℚ) : String :=
  if ratio ≤ 28 then "Low risk"
  else if ratio ≤ 36 then "Moderate risk"
  else "High risk"

/-- The `getLoanVerdict` bucketing of `ResultsPage` (label component). -/
def getLoanVerdict (score : ℚ) : String :=
  if score ≥ 80 then "Likely Approved"
  else if score ≥ 60 then "Requires Review"
  else "High Risk"

/-- The chronologically last six entries: `entries.slice(-6)`. -/
def last6 (entries : List (String × MonthlyFlow)) : List (String × MonthlyFlow) :=
  entries.drop (entries.length - 6)

/-- The bar-chart series: `last6.map(([month, f]) => ({month, deposits, withdrawals}))`. -/
def monthlyData (entries : List (String × MonthlyFlow)) : List (String × ℚ × ℚ) :=
  (last6 entries).map fun mf => (mf.1, mf.2.deposits, mf.2.withdrawals)

/-- The line-chart series: `last6.map(([month, f]) => ({month, balance: f.end_balance}))`. -/
def balanceData (entries : List (String × MonthlyFlow)) : List (String × ℚ) :=
  (last6 entries).map fun mf => (mf.1, mf.2.end_balance)

/-- The category expansion: `Object.entries(pct).map(([category, value]) =>
    ({category, value, amount: Math.round((value / 100) * total_withdrawals)}))`. -/
def spendingData (pct : List (String × ℚ)) (total_withdrawals : ℚ) :
    List (String × ℚ × ℤ) :=
  pct.map fun cv => (cv.1, cv.2, round (cv.2 / 100 * total_withdrawals))

/-- What the Net Cash Flow card's caption shows. -/
inductive NetFlowDisplay where
  | noData
  | percent (value : ℚ)
deriving DecidableEq

/-- The Net Cash Flow caption of `ResultsPage`: the marker when
    `net_cash_flow === 0`, otherwise
    `(net_cash_flow / (total_deposits + total_withdrawals || 1) * 100).toFixed(1)`
    (the JavaScript `|| 1` replaces a zero sum by 1). -/
def netFlowDisplay (net_cash_flow total_deposits total_withdrawals : ℚ) :
    NetFlowDisplay :=
  if net_cash_flow = 0 then .noData
  else .percent (toFixed1
    (net_cash_flow /
      (if total_deposits + total_withdrawals = 0 then 1
       else total_deposits + total_withdrawals) * 100))

/-- The claim's reading of the same caption, for comparison with
    `netFlowDisplay`: the denominator is replaced by 1 only when
    `total_deposits` and `total_withdrawals` are BOTH zero. -/
def netFlowDisplayClaim (net_cash_flow total_deposits total_withdrawals : ℚ) :
    NetFlowDisplay :=
  if net_cash_flow = 0 then .noData
  else .percent (toFixed1
    (net_cash_flow /
      (if total_deposits = 0 ∧ total_withdrawals = 0 then 1
       else total_deposits + total_withdrawals) * 100))

/-- Everything `ResultsPage` derives from the payload before rendering. -/
structure DerivedView where
  dtiDisplay : ℚ
  dtiRiskLabel : String
  loanVerdictLabel : String
  netFlow : NetFlowDisplay
  monthly : List (String × ℚ × ℚ)
  balance : List (String × ℚ)
  spending : List (String × ℚ × ℤ)
  issues : List DataIssue
deriving DecidableEq

/-- The derivation block of `ResultsPage` (lines 60-122 and the Net Cash Flow
    card): destructuring with defaults, then the chart inputs.  The one
    non-defaulted access is `finalResult.analysis_summary.monthly_flows`,
    which reads the raw payload field — not the destructured local with its
    default object — and therefore throws a `TypeError` when
    `analysis_summary` is absent; that throw is `Except.error`. -/
def deriveView (finalResult : GeminiResult) : Except String DerivedView :=
  let loan_score := finalResult.loan_score.getD 0
  let analysis_summary := finalResult.analysis_summary.getD
    { total_deposits := some 0, total_withdrawals := some 0,
      net_cash_flow := some 0, debt_to_income := some 0, monthly_flows := none }
  let data_issues := finalResult.data_issues.getD []
  let total_deposits := analysis_summary.total_deposits.getD 0
  let total_withdrawals := analysis_summary.total_withdrawals.getD 0
  let net_cash_flow := analysis_summary.net_cash_flow.getD 0
  let debt_to_income := analysis_summary.debt_to_income.getD 0
  match finalResult.analysis_summary with
  | none =>
      Except.error "TypeError: Cannot read properties of undefined (reading monthly_flows)"
  | some a =>
      let flows := a.monthly_flows.getD []
      Except.ok
        { dtiDisplay := dtiRatio debt_to_income
          dtiRiskLabel := getDtiRisk (dtiRatio debt_to_income)
          loanVerdictLabel := getLoanVerdict loan_score
          netFlow := netFlowDisplay net_cash_flow total_deposits total_withdrawals
          monthly := monthlyData flows
          balance := balanceData flows
          spending := spendingData (finalResult.spending_by_category.getD []) total_withdrawals
          issues := data_issues }

/-- A payload that carries a `session_id` but no `analysis_summary` at all. -/
def payloadMissingSummary : GeminiResult :=
  { session_id := some "abc123", loan_score := none, loan_amount_requested := none,
    analysis_summary := none, spending_by_category := none, data_issues := none }

/-- The same payload with an `analysis_summary` object present but empty. -/
def payloadEmptySummary : GeminiResult :=
  { payloadMissingSummary with
      analysis_summary := some
        { total_deposits := none, total_withdrawals := none, net_cash_flow := none,
          debt_to_income := none, monthly_flows := none } }

/-! ## Claims -/

/-- C1: for every status response with `current_step` in `[0, 7]`, the poll
    handler recomputes each stage's state purely from `(index, currentStep)`
    (the resulting status sequence does not depend on the previous stages):
    stage `i` is completed exactly when `i < currentStep`, processing exactly
    when `i = currentStep`, pending otherwise; hence exactly `currentStep`
    stages are completed, processing count is one iff `currentStep < 7` and
    zero otherwise, and the rest are pending. -/
theorem pollProgress_recompute_stage_states (prev : List ProcessingStep) (step : Nat)
    (hlen : prev.length = 7) (hstep : step ≤ 7) :
    ((recomputeSteps prev step).map ProcessingStep.status
        = (List.range 7).map fun idx => stepStatusOf idx step)
    ∧ (∀ idx, idx < 7 →
        ((stepStatusOf idx step = .completed ↔ idx < step)
          ∧ (stepStatusOf idx step = .processing ↔ idx = step)
          ∧ (stepStatusOf idx step = .pending ↔ step < idx)))
    ∧ (((recomputeSteps prev step).map ProcessingStep.status).count .completed = step)
    ∧ (((recomputeSteps prev step).map ProcessingStep.status).count .processing
        = if step < 7 then 1 else 0)
    ∧ (((recomputeSteps prev step).map ProcessingStep.status).count .pending
        = 7 - step - if step < 7 then 1 else 0) := by
  have hmap := recomputeSteps_statuses prev step
  rw [hlen] at hmap
  refine ⟨hmap, ?_, ?_, ?_, ?_⟩
  · intro idx _
    unfold stepStatusOf
    refine ⟨?_, ?_, ?_⟩ <;> split_ifs with h1 h2 <;> simp_all <;> omega
  all_goals rw [hmap]; interval_cases step <;> decide

/-- Witness for C1: the startup stage sequence with `current_step = 3` has
    exactly three completed stages. -/
theorem pollProgress_recompute_stage_states_at_three :
    ((recomputeSteps steps 3).map ProcessingStep.status).count .completed = 3 :=
  (pollProgress_recompute_stage_states steps 3 rfl (by decide)).2.2.1

/-- C10: the stage-sequence update of the poll handler changes only the
    status of each stage: titles and descriptions are untouched for every
    previous sequence and every polled step. -/
theorem recompute_preserves_titles (prev : List ProcessingStep) (step : Nat) :
    (recomputeSteps prev step).map ProcessingStep.title = prev.map ProcessingStep.title
    ∧ (recomputeSteps prev step).map ProcessingStep.description
        = prev.map ProcessingStep.description := by
  constructor <;>
  · apply List.ext_get
    · simp [recomputeSteps]
    · intro i h1 h2
      simp [recomputeSteps, List.get_mapIdx]

/-- C3: the completion branch clears the interval, but the `/results` fetch is
    NOT issued exactly once: each processed completion response issues its own
    fetch, so a second completion response — e.g. from a poll already in
    flight when the first one was processed — double-fetches.  Evaluated on
    the concrete trace of two `current_step = 7` responses from the initial
    state. -/
theorem completion_fetch_not_idempotent :
    (run (initialTrackerState Unit) [.progressResponse 7]).resultFetches = 1
    ∧ (run (initialTrackerState Unit) [.progressResponse 7]).intervalActive = false
    ∧ (run (initialTrackerState Unit)
          [.progressResponse 7, .progressResponse 7]).resultFetches = 2 :=
  ⟨rfl, rfl, rfl⟩

/-- C4: once the effect cleanup has run, the interval is cleared and no later
    poll or result-fetch response (nor a repeated cleanup) changes the state
    in any way — in particular `currentStep`, `processedSteps`, `finalResult`
    and the navigation count are those from before the teardown. -/
theorem teardown_suppresses_responses (R : Type) (s : TrackerState R)
    (evs : List (TrackerEvent R)) :
    run (teardown s) evs = teardown s
    ∧ (teardown s).intervalActive = false
    ∧ (teardown s).currentStep = s.currentStep
    ∧ (teardown s).processedSteps = s.processedSteps
    ∧ (teardown s).finalResult = s.finalResult
    ∧ (teardown s).navigations = s.navigations :=
  ⟨run_of_torn_down _ rfl rfl _, rfl, rfl, rfl, rfl, rfl⟩

/-- C2: a payload that carries a `session_id` but no `analysis_summary` makes
    the derivation block throw (the `finalResult.analysis_summary.monthly_flows`
    access reads the raw payload, not the destructured default), although the
    same block degrades to defaults whenever `analysis_summary` is present,
    even empty — evidence that the missing-summary case is a slip, not a
    design choice. -/
theorem deriveView_missing_summary_raises :
    payloadMissingSummary.session_id = some "abc123"
    ∧ deriveView payloadMissingSummary
        = Except.error "TypeError: Cannot read properties of undefined (reading monthly_flows)"
    ∧ deriveView payloadEmptySummary
        = Except.ok { dtiDisplay := 0, dtiRiskLabel := "Low risk",
                      loanVerdictLabel := "High Risk", netFlow := .noData,
                      monthly := [], balance := [], spending := [], issues := [] } := by
  refine ⟨rfl, rfl, ?_⟩
  norm_num [deriveView, payloadEmptySummary, payloadMissingSummary, dtiRatio, toFixed1,
    getDtiRisk, getLoanVerdict, netFlowDisplay, monthlyData, balanceData,
    spendingData, last6]

/-- C5: the displayed DTI percentage is `debt_to_income * 100` rounded to one
    decimal, and `getDtiRisk` buckets its argument into low for values `≤ 28`,
    moderate for `(28, 36]` and high for `> 36`; in particular 28.0 is low,
    28.1 moderate, 36.0 moderate and 36.1 high. -/
theorem dti_display_and_risk_buckets :
    (∀ d : ℚ, dtiRatio d = (round (d * 100 * 10) : ℚ) / 10)
    ∧ (∀ r : ℚ, (getDtiRisk r = "Low risk" ↔ r ≤ 28)
        ∧ (getDtiRisk r = "Moderate risk" ↔ 28 < r ∧ r ≤ 36)
        ∧ (getDtiRisk r = "High risk" ↔ 36 < r))
    ∧ getDtiRisk 28 = "Low risk"
    ∧ getDtiRisk (281/10) = "Moderate risk"
    ∧ getDtiRisk 36 = "Moderate risk"
    ∧ getDtiRisk (361/10) = "High risk" := by
  refine ⟨fun d => rfl, fun r => ?_, by norm_num [getDtiRisk], by norm_num [getDtiRisk],
    by norm_num [getDtiRisk], by norm_num [getDtiRisk]⟩
  unfold getDtiRisk
  split_ifs with h1 h2
  · exact ⟨⟨fun _ => h1, fun _ => rfl⟩,
      ⟨fun h => absurd h (by decide), fun hc => absurd h1 (not_le.mpr hc.1)⟩,
      ⟨fun h => absurd h (by decide),
        fun hc => absurd h1 (not_le.mpr (lt_trans (by norm_num) hc))⟩⟩
  · exact ⟨⟨fun h => absurd h (by decide), fun hc => absurd hc h1⟩,
      ⟨fun _ => ⟨not_le.mp h1, h2⟩, fun _ => rfl⟩,
      ⟨fun h => absurd h (by decide), fun hc => absurd h2 (not_le.mpr hc)⟩⟩
  · exact ⟨⟨fun h => absurd h (by decide), fun hc => absurd hc h1⟩,
      ⟨fun h => absurd h (by decide), fun hc => absurd hc.2 h2⟩,
      ⟨fun _ => not_le.mp h2, fun _ => rfl⟩⟩

/-- C6: `getLoanVerdict` returns the approval label iff the score is at least
    80, the review label iff it is in `[60, 80)` and the high-risk label iff
    it is below 60, for every rational score (no clamping to `[0, 100]`);
    in particular 79 requires review, 80 is likely approved, 59 is high risk
    and 60 requires review. -/
theorem loan_verdict_buckets :
    (∀ s : ℚ, (getLoanVerdict s = "Likely Approved" ↔ 80 ≤ s)
        ∧ (getLoanVerdict s = "Requires Review" ↔ 60 ≤ s ∧ s < 80)
        ∧ (getLoanVerdict s = "High Risk" ↔ s < 60))
    ∧ getLoanVerdict 79 = "Requires Review"
    ∧ getLoanVerdict 80 = "Likely Approved"
    ∧ getLoanVerdict 59 = "High Risk"
    ∧ getLoanVerdict 60 = "Requires Review" := by
  refine ⟨fun s => ?_, by norm_num [getLoanVerdict], by norm_num [getLoanVerdict],
    by norm_num [getLoanVerdict], by norm_num [getLoanVerdict]⟩
  unfold getLoanVerdict
  split_ifs with h1 h2
  · exact ⟨⟨fun _ => h1, fun _ => rfl⟩,
      ⟨fun h => absurd h (by decide), fun hc => absurd h1 (not_le.mpr hc.2)⟩,
      ⟨fun h => absurd h (by decide),
        fun hc => absurd h1 (not_le.mpr (lt_trans hc (by norm_num)))⟩⟩
  · exact ⟨⟨fun h => absurd h (by decide), fun hc => absurd hc h1⟩,
      ⟨fun _ => ⟨h2, not_le.mp h1⟩, fun _ => rfl⟩,
      ⟨fun h => absurd h (by decide), fun hc => absurd h2 (not_le.mpr hc)⟩⟩
  · exact ⟨⟨fun h => absurd h (by decide), fun hc => absurd hc h1⟩,
      ⟨fun h => absurd h (by decide), fun hc => absurd hc.1 h2⟩,
      ⟨fun _ => not_le.mp h2, fun _ => rfl⟩⟩

/-- C7: both chart series are built from the chronologically last six entries
    of the monthly mapping in their original order (`last6` is a suffix of
    length `min 6 n`), projected in parallel; an empty mapping yields two
    empty series, and a negative end balance passes through unclamped. -/
theorem monthly_series_last_six :
    (∀ entries : List (String × MonthlyFlow),
        last6 entries <:+ entries ∧ (last6 entries).length = min 6 entries.length)
    ∧ (∀ entries, monthlyData entries
        = (last6 entries).map fun mf => (mf.1, mf.2.deposits, mf.2.withdrawals))
    ∧ (∀ entries, balanceData entries
        = (last6 entries).map fun mf => (mf.1, mf.2.end_balance))
    ∧ monthlyData [] = [] ∧ balanceData [] = []
    ∧ balanceData [("Jan", { deposits := 0, withdrawals := 0,
                             end_balance := -50, debt_to_income := 0 })] = [("Jan", -50)] := by
  refine ⟨fun e => ⟨List.drop_suffix _ _, ?_⟩, fun e => rfl, fun e => rfl, rfl, rfl, rfl⟩
  rw [last6, List.length_drop]
  omega

/-- C8: the category expansion keeps the mapping's iteration order, pairing
    every `(category, percent)` with `round (percent / 100 * total_withdrawals)`;
    the `{A: 50, B: 50}` mapping with 1000 of withdrawals yields 500 and 500
    in order, and an empty mapping yields an empty list. -/
theorem spending_category_expansion :
    (∀ pct (tw : ℚ), (spendingData pct tw).map (fun x => x.1) = pct.map fun cv => cv.1)
    ∧ (∀ pct (tw : ℚ), spendingData pct tw
        = pct.map fun cv => (cv.1, cv.2, round (cv.2 / 100 * tw)))
    ∧ spendingData [("A", 50), ("B", 50)] 1000 = [("A", 50, 500), ("B", 50, 500)]
    ∧ (∀ tw : ℚ, spendingData [] tw = []) := by
  refine ⟨fun pct tw => ?_, fun pct tw => rfl, ?_, fun tw => rfl⟩
  · simp [spendingData]
  · norm_num [spendingData]

/-- Counterexample to C9 as stated: with `total_deposits = 1` and
    `total_withdrawals = -1` (not both zero, sum zero) and a nonzero net flow,
    the code's caption uses denominator 1 (the JavaScript `|| 1` replaces a
    zero SUM), while the claim's formula keeps the zero denominator. -/
theorem netFlow_denominator_cex :
    netFlowDisplay 1 1 (-1) ≠ netFlowDisplayClaim 1 1 (-1) := by
  have h1 : netFlowDisplay 1 1 (-1) = .percent 100 := by
    norm_num [netFlowDisplay, toFixed1]
  have h2 : netFlowDisplayClaim 1 1 (-1) = .percent 0 := by
    norm_num [netFlowDisplayClaim, toFixed1]
  rw [h1, h2]
  intro hc
  rw [NetFlowDisplay.percent.injEq] at hc
  norm_num at hc

/-- C9 amended: the caption shows the no-data marker iff `net_cash_flow = 0`;
    otherwise it shows the net flow over `total_deposits + total_withdrawals`
    as a percentage rounded to one decimal, with the denominator replaced by 1
    whenever that SUM is zero (not only when both totals are zero), so no
    division by zero ever occurs; when both totals are nonnegative this
    coincides with the claimed both-zero reading. -/
theorem netFlow_caption_amended :
    (∀ net td tw : ℚ, (netFlowDisplay net td tw = .noData ↔ net = 0))
    ∧ (∀ net td tw : ℚ, net ≠ 0 → netFlowDisplay net td tw
        = .percent (toFixed1 (net / (if td + tw = 0 then 1 else td + tw) * 100)))
    ∧ (∀ td tw : ℚ, (if td + tw = 0 then (1 : ℚ) else td + tw) ≠ 0)
    ∧ (∀ net td tw : ℚ, 0 ≤ td → 0 ≤ tw →
        netFlowDisplay net td tw = netFlowDisplayClaim net td tw) := by
  refine ⟨fun net td tw => ?_, fun net td tw h => ?_, fun td tw => ?_,
    fun net td tw htd htw => ?_⟩
  · unfold netFlowDisplay
    split_ifs with h
    · simp [h]
    · simp [h]
  · simp [netFlowDisplay, h]
  · split_ifs with h
    · norm_num
    · exact h
  · have hiff : td + tw = 0 ↔ td = 0 ∧ tw = 0 := by
      constructor
      · intro h0
        constructor <;> linarith
      · rintro ⟨h1, h2⟩
        rw [h1, h2, add_zero]
    unfold netFlowDisplay netFlowDisplayClaim
    simp only [hiff]

end FlowCheck
